import Mathlib

/-!
Shallow embedding of the e-commerce analytics pipeline
(`data_loader.py` and `business_metrics.py`) and proofs about it.

Tables (pandas DataFrames) are modelled as a list of column names together
with a list of rows, where a row is an association list from column names to
optional values (`none` models a missing value: NaN / NaT / None).
Floating point scalars are modelled by the type `FVal`: a rational number,
plus the IEEE special values `inf`, `neginf` and `nan`.
-/

namespace EcomSpec

/-- Model of an IEEE double as produced by pandas / numpy arithmetic:
a finite (rational) value or one of the special values. -/
inductive FVal where
  | fin (q : ℚ)
  | inf
  | neginf
  | nan
deriving DecidableEq

/-- Float addition with IEEE special-value rules. -/
def FVal.add : FVal → FVal → FVal
  | nan, _ => nan
  | _, nan => nan
  | fin a, fin b => fin (a + b)
  | fin _, inf => inf
  | fin _, neginf => neginf
  | inf, fin _ => inf
  | neginf, fin _ => neginf
  | inf, inf => inf
  | neginf, neginf => neginf
  | inf, neginf => nan
  | neginf, inf => nan

/-- Float subtraction with IEEE special-value rules. -/
def FVal.sub : FVal → FVal → FVal
  | nan, _ => nan
  | _, nan => nan
  | fin a, fin b => fin (a - b)
  | fin _, inf => neginf
  | fin _, neginf => inf
  | inf, fin _ => inf
  | neginf, fin _ => neginf
  | inf, neginf => inf
  | neginf, inf => neginf
  | inf, inf => nan
  | neginf, neginf => nan

/-- Float multiplication with IEEE special-value rules. -/
def FVal.mul : FVal → FVal → FVal
  | nan, _ => nan
  | _, nan => nan
  | fin a, fin b => fin (a * b)
  | fin a, inf => if a = 0 then nan else if 0 < a then inf else neginf
  | fin a, neginf => if a = 0 then nan else if 0 < a then neginf else inf
  | inf, fin b => if b = 0 then nan else if 0 < b then inf else neginf
  | neginf, fin b => if b = 0 then nan else if 0 < b then neginf else inf
  | inf, inf => inf
  | inf, neginf => neginf
  | neginf, inf => neginf
  | neginf, neginf => inf

/-- Float (true) division with IEEE special-value rules: numpy float division
by zero yields `inf`, `-inf` or `nan` (with a runtime warning), it does not
raise an exception. -/
def FVal.div : FVal → FVal → FVal
  | nan, _ => nan
  | _, nan => nan
  | fin a, fin b =>
      if b = 0 then (if a = 0 then nan else if 0 < a then inf else neginf)
      else fin (a / b)
  | fin _, inf => fin 0
  | fin _, neginf => fin 0
  | inf, fin b => if b < 0 then neginf else inf
  | neginf, fin b => if b < 0 then inf else neginf
  | inf, inf => nan
  | inf, neginf => nan
  | neginf, inf => nan
  | neginf, neginf => nan

/-- A timestamp: absolute time `t` measured in whole days since an epoch,
together with its calendar year and month fields (the calendar conversion
itself is not re-implemented; a timestamp carries its own `dt.year` /
`dt.month` projections). -/
structure Date where
  t : ℤ
  year : ℤ
  month : ℤ
deriving DecidableEq

/-- A cell value: a string, a float, or a timestamp. -/
inductive Val where
  | str (s : String)
  | num (v : FVal)
  | date (d : Date)
deriving DecidableEq

/-- A cell of a table; `none` models a missing value (NaN / NaT / None). -/
abbrev Cell := Option Val

/-- A row: an association list from column names to cells. -/
abbrev Row := List (String × Cell)

/-- A table: ordered column names and rows. -/
structure DataFrame where
  cols : List String
  data : List Row
deriving DecidableEq

/-- Row lookup by column name (first binding wins; absent gives `none`). -/
def rlookup (r : Row) (c : String) : Cell :=
  match r.find? (fun p => p.1 == c) with
  | some p => p.2
  | none => none

/-- pandas `pd.isna`: missing cells and float NaN cells are "na". -/
def cellna : Cell → Bool
  | none => true
  | some (Val.num FVal.nan) => true
  | some _ => false

/-- An empty DataFrame, as `pd.DataFrame()`. -/
def emptyDF : DataFrame := ⟨[], []⟩

/-- Column extraction `df[c]`: raises KeyError when the column is absent. -/
def getCol (df : DataFrame) (c : String) : Except String (List Cell) :=
  if df.cols.contains c then .ok (df.data.map (fun r => rlookup r c))
  else .error ("KeyError: " ++ c)

/-- Restriction of a table to the given columns (keeps their given order). -/
def restrictCols (df : DataFrame) (cs : List String) : DataFrame :=
  ⟨cs, df.data.map (fun r => cs.map (fun c => (c, rlookup r c)))⟩

/-- Column selection `df[[cs]]`: raises KeyError when any column is absent. -/
def selectCols (df : DataFrame) (cs : List String) : Except String DataFrame :=
  if cs.all (fun c => df.cols.contains c) then .ok (restrictCols df cs)
  else .error "KeyError: column selection"

/-- Update one binding of a row. -/
def setCell (r : Row) (c : String) (v : Cell) : Row :=
  r.map (fun p => if p.1 == c then (p.1, v) else p)

/-- Column assignment `df[c] = f(row)`: overwrites the column in place when it
exists, otherwise appends it at the end (pandas assignment semantics). -/
def setColWith (df : DataFrame) (c : String) (f : Row → Cell) : DataFrame :=
  if df.cols.contains c then ⟨df.cols, df.data.map (fun r => setCell r c (f r))⟩
  else ⟨df.cols ++ [c], df.data.map (fun r => r ++ [(c, f r)])⟩

/-- Column assignment of a constant value. -/
def setColConst (df : DataFrame) (c : String) (v : Cell) : DataFrame :=
  setColWith df c (fun _ => v)

/-- Drop the listed columns (`df.drop(cs, axis=1)`). -/
def dropCols (df : DataFrame) (cs : List String) : DataFrame :=
  ⟨df.cols.filter (fun c => !(cs.contains c)),
   df.data.map (fun r => r.filter (fun p => !(cs.contains p.1)))⟩

/-- Boolean row filtering `df[mask]`. -/
def filterRows (df : DataFrame) (p : Row → Bool) : DataFrame :=
  ⟨df.cols, df.data.filter p⟩

/-- pandas `df.dropna(subset=[c])`. -/
def dropnaCol (df : DataFrame) (c : String) : DataFrame :=
  filterRows df (fun r => !(cellna (rlookup r c)))

/-- pandas left merge `left.merge(right, on=k, how='left')`:
columns (other than the key) present on both sides are renamed with the
default suffixes `_x` (left) and `_y` (right); every left row is kept, rows
whose key misses on the right get null right-side cells, and a key matching
several right rows is expanded to one output row per match.  A missing merge
key raises KeyError. -/
def mergeLeft (l r : DataFrame) (k : String) : Except String DataFrame :=
  if !(l.cols.contains k) || !(r.cols.contains k) then
    .error ("KeyError: merge key " ++ k)
  else
    let overlap : String → Bool := fun c =>
      c != k && l.cols.contains c && r.cols.contains c
    let lname : String → String := fun c => if overlap c then c ++ "_x" else c
    let rname : String → String := fun c => if overlap c then c ++ "_y" else c
    let rRest := r.cols.filter (fun c => c != k)
    let leftRow : Row → Row := fun lr => l.cols.map (fun c => (lname c, rlookup lr c))
    let rightRow : Row → Row := fun rr => rRest.map (fun c => (rname c, rlookup rr c))
    let nullRight : Row := rRest.map (fun c => (rname c, (none : Cell)))
    .ok ⟨l.cols.map lname ++ rRest.map rname,
      l.data.flatMap (fun lr =>
        let key := rlookup lr k
        let ms := if key.isSome then
            r.data.filter (fun rr => decide (rlookup rr k = key)) else []
        if ms.isEmpty then [leftRow lr ++ nullRight]
        else ms.map (fun rr => leftRow lr ++ rightRow rr))⟩

/-- Numeric (non-na) values of a column, as used by skipna aggregations. -/
def numVals (xs : List Cell) : List FVal :=
  (xs.filterMap (fun c => match c with | some (Val.num v) => some v | _ => none)).filter
    (fun v => decide (v ≠ FVal.nan))

/-- Finite rational values of a column. -/
def ratVals (xs : List Cell) : List ℚ :=
  xs.filterMap (fun c => match c with | some (Val.num (FVal.fin q)) => some q | _ => none)

/-- pandas `Series.sum()` (skipna; the empty sum is `0.0`). -/
def colSum (xs : List Cell) : FVal := (numVals xs).foldl FVal.add (FVal.fin 0)

/-- Mean of a list of floats (`nan` when empty, as pandas `mean`). -/
def fmean (vs : List FVal) : FVal :=
  if vs.length = 0 then FVal.nan
  else (vs.foldl FVal.add (FVal.fin 0)).div (FVal.fin vs.length)

/-- pandas `Series.mean()` (skipna). -/
def colMean (xs : List Cell) : FVal := fmean (numVals xs)

/-- Median of a list of rationals (`nan` when empty; midpoint for even length). -/
def qmedian (l : List ℚ) : FVal :=
  let vs := l.mergeSort (fun a b => decide (a ≤ b))
  if vs.length = 0 then FVal.nan
  else if vs.length % 2 = 1 then FVal.fin (vs.getD (vs.length / 2) 0)
  else FVal.fin ((vs.getD (vs.length / 2 - 1) 0 + vs.getD (vs.length / 2) 0) / 2)

/-- pandas `Series.median()` (skipna, restricted to finite values). -/
def colMedian (xs : List Cell) : FVal := qmedian (ratVals xs)

/-- pandas `Series.quantile(p)` with the default linear interpolation
(restricted to finite values; `nan` when empty). -/
def colQuantile (xs : List Cell) (p : ℚ) : FVal :=
  let vs := (ratVals xs).mergeSort (fun a b => decide (a ≤ b))
  if vs.length = 0 then FVal.nan
  else
    let n := vs.length
    let h : ℚ := ((n : ℚ) - 1) * p
    let i : ℕ := (⌊h⌋).toNat
    let lo := vs.getD i 0
    let hi := vs.getD (min (i + 1) (n - 1)) 0
    FVal.fin (lo + (h - (i : ℚ)) * (hi - lo))

/-- Distinct non-na cell values of a column, in order of first appearance
(the group keys of a pandas `groupby` on that column). -/
def groupKeys (xs : List Cell) : List Cell :=
  (xs.filter (fun c => !(cellna c))).dedup

/-- pandas `Series.nunique()`: the number of distinct non-na values. -/
def nunique (xs : List Cell) : ℕ := (groupKeys xs).length

/-- Rows of a group: those whose `keycol` cell equals the key. -/
def groupRows (rows : List Row) (keycol : String) (k : Cell) : List Row :=
  rows.filter (fun r => decide (rlookup r keycol = k))

/-!  The delivery-speed bucketing of `data_loader.categorize_delivery_speed`. -/

/-- Translation of `data_loader.categorize_delivery_speed`: a null duration is
"Unknown", otherwise the thresholds are `days <= 3` and `days <= 7`. -/
def categorize_delivery_speed (days : Option ℚ) : String :=
  match days with
  | none => "Unknown"
  | some d => if d ≤ 3 then "1-3 days" else if d ≤ 7 then "4-7 days" else "8+ days"

/-!  `data_loader.filter_data_by_date_range`. -/

/-- The `dt.year` projection of a cell (`none` for NaT / non-dates). -/
def cellYear (c : Cell) : Option ℤ :=
  match c with | some (Val.date d) => some d.year | _ => none

/-- The `dt.month` projection of a cell. -/
def cellMonth (c : Cell) : Option ℤ :=
  match c with | some (Val.date d) => some d.month | _ => none

/-- A pandas comparison mask `v >= bound` (an absent bound keeps every row;
a missing value compares false). -/
def passLB (v : Option ℤ) (b : Option ℤ) : Bool :=
  match b with
  | none => true
  | some x => match v with | none => false | some y => decide (x ≤ y)

/-- A pandas comparison mask `v <= bound`. -/
def passUB (v : Option ℤ) (b : Option ℤ) : Bool :=
  match b with
  | none => true
  | some x => match v with | none => false | some y => decide (y ≤ x)

/-- Translation of `data_loader.filter_data_by_date_range`: four successive
boolean filters (year lower/upper bound, then month lower/upper bound, each
inclusive and each skipped when its bound is `None`); a missing date column
returns the input unchanged. -/
def filter_data_by_date_range (df : DataFrame)
    (start_year end_year start_month end_month : Option ℤ)
    (date_column : String := "order_purchase_timestamp") : DataFrame :=
  if !(df.cols.contains date_column) then df
  else
    let f1 := filterRows df (fun r => passLB (cellYear (rlookup r date_column)) start_year)
    let f2 := filterRows f1 (fun r => passUB (cellYear (rlookup r date_column)) end_year)
    let f3 := filterRows f2 (fun r => passLB (cellMonth (rlookup r date_column)) start_month)
    filterRows f3 (fun r => passUB (cellMonth (rlookup r date_column)) end_month)

/-!  `data_loader.create_sales_dataset`. -/

/-- The item-side table `create_sales_dataset` starts from: the order-items
table restricted to the required columns that are actually present. -/
def csd_base (order_items : DataFrame) : DataFrame :=
  let required := ["order_id", "order_item_id", "product_id", "price", "freight_value"]
  restrictCols order_items (required.filter (fun c => order_items.cols.contains c))

/-- The order columns `create_sales_dataset` pulls in from the orders table. -/
def csd_orders_cols : List String :=
  ["order_id", "order_status", "order_purchase_timestamp",
   "order_delivered_customer_date", "purchase_year", "purchase_month", "customer_id"]

/-- The left-join of the item table with the available order columns
(`sales_data.merge(datasets['orders'][available_order_cols], on='order_id',
how='left')`). -/
def csd_after_orders_merge (order_items orders : DataFrame) : Except String DataFrame :=
  mergeLeft (csd_base order_items)
    (restrictCols orders (csd_orders_cols.filter (fun c => orders.cols.contains c)))
    "order_id"

/-- Derivation of the `delivery_days` cell of one row:
`(order_delivered_customer_date - order_purchase_timestamp).dt.days`
(whole days; null when either timestamp is missing). -/
def delivery_days_cell (r : Row) : Cell :=
  match rlookup r "order_delivered_customer_date", rlookup r "order_purchase_timestamp" with
  | some (Val.date d2), some (Val.date d1) => some (Val.num (FVal.fin ((d2.t - d1.t : ℤ) : ℚ)))
  | _, _ => none

/-- Translation of `data_loader.create_sales_dataset`: start from the item
table, left-join the order columns, optionally filter by order status, then
derive `delivery_days` and `delivery_speed_category` when the two timestamp
columns are available. -/
def create_sales_dataset (order_items orders : DataFrame)
    (order_status_filter : Option String := some "delivered") : Except String DataFrame := do
  let merged ← csd_after_orders_merge order_items orders
  let filtered :=
    match order_status_filter with
    | some st =>
        if merged.cols.contains "order_status" then
          filterRows merged (fun r => decide (rlookup r "order_status" = some (Val.str st)))
        else merged
    | none => merged
  let final :=
    if filtered.cols.contains "order_delivered_customer_date"
        && filtered.cols.contains "order_purchase_timestamp" then
      let d1 := setColWith filtered "delivery_days" delivery_days_cell
      setColWith d1 "delivery_speed_category"
        (fun r => some (Val.str (categorize_delivery_speed
          (match rlookup r "delivery_days" with
           | some (Val.num (FVal.fin q)) => some q
           | _ => none))))
    else filtered
  .ok final

/-!  `data_loader.add_product_categories` and `data_loader.add_review_data`. -/

/-- Translation of `data_loader.add_product_categories`:
when `product_id` is absent from the products table the input is returned
unchanged; when `product_category_name` is absent a constant placeholder
column is assigned; otherwise the function reads `sales_df['product_id']`,
left-joins the category columns, and then reads
`result_df['product_category_name']` for its null-count check (so a KeyError
surfaces when the merge suffixed that column away). -/
def add_product_categories (sales_df products_df : DataFrame) : Except String DataFrame :=
  let product_cols := ["product_id", "product_category_name"]
  let available_cols := product_cols.filter (fun c => products_df.cols.contains c)
  if !(available_cols.contains "product_id") then .ok sales_df
  else if !(available_cols.contains "product_category_name") then
    .ok (setColConst sales_df "product_category_name" (some (Val.str "Unknown")))
  else do
    let _ ← getCol sales_df "product_id"
    let sel ← selectCols products_df available_cols
    let result ← mergeLeft sales_df sel "product_id"
    let _ ← getCol result "product_category_name"
    .ok result

/-- Translation of `data_loader.add_review_data`: reads
`reviews_df['order_id']` (duplicate check) and `sales_df['order_id']`
(coverage check), then left-joins the available review columns on `order_id`;
the review-score statistics afterwards are guarded by a column-presence
check, so they cannot fail. -/
def add_review_data (sales_df reviews_df : DataFrame) : Except String DataFrame := do
  let review_cols := ["order_id", "review_score", "review_creation_date"]
  let available := review_cols.filter (fun c => reviews_df.cols.contains c)
  let _ ← getCol reviews_df "order_id"
  let _ ← getCol sales_df "order_id"
  let sel ← selectCols reviews_df available
  let result ← mergeLeft sales_df sel "order_id"
  .ok result

/-!  Shared helpers for the metric tables of `business_metrics.py`. -/

/-- Round to an integer, ties to even (the rounding of numpy / pandas). -/
def roundHalfEven (x : ℚ) : ℤ :=
  let f := ⌊x⌋
  let r := x - f
  if r < 1 / 2 then f else if 1 / 2 < r then f + 1 else if f % 2 = 0 then f else f + 1

/-- pandas `.round(2)` on a rational value. -/
def round2 (x : ℚ) : ℚ := ((roundHalfEven (x * 100) : ℤ) : ℚ) / 100

/-- pandas `.round(2)` on a float (special values unchanged). -/
def FVal.round2 : FVal → FVal
  | FVal.fin q => FVal.fin (EcomSpec.round2 q)
  | v => v

/-- Numeric content of a cell (`nan` for anything else). -/
def getNumCell (r : Row) (c : String) : FVal :=
  match rlookup r c with
  | some (Val.num v) => v
  | _ => FVal.nan

/-- A total Boolean order on floats (`neginf` low, `inf` high; `nan` padding). -/
def fleB : FVal → FVal → Bool
  | FVal.nan, _ => true
  | _, FVal.nan => true
  | FVal.neginf, _ => true
  | _, FVal.inf => true
  | FVal.fin a, FVal.fin b => decide (a ≤ b)
  | FVal.fin _, FVal.neginf => false
  | FVal.inf, FVal.fin _ => false
  | FVal.inf, FVal.neginf => false

/-- Comparator of `sort_values(ascending=False)`: larger values first, NaN
sorted last. -/
def fvalDescLe (a b : FVal) : Bool :=
  match a, b with
  | FVal.nan, FVal.nan => true
  | FVal.nan, _ => false
  | _, FVal.nan => true
  | x, y => fleB y x

/-- pandas `Series.value_counts()`: pairs of distinct non-na value and its
count, most frequent first. -/
def valueCounts (xs : List Cell) : List (Val × ℕ) :=
  let vals := xs.filterMap (fun c => if cellna c then none else c)
  ((vals.dedup).map (fun v => (v, (vals.filter (fun w => decide (w = v))).length))).mergeSort
    (fun a b => decide (b.2 ≤ a.2))

/-- pandas `Series.value_counts(normalize=True)`. -/
def valueCountsNorm (xs : List Cell) : List (Val × ℚ) :=
  let total := (xs.filter (fun c => !(cellna c))).length
  (valueCounts xs).map (fun p => (p.1, (p.2 : ℚ) / (total : ℚ)))

/-- pandas `df.drop_duplicates(subset=[c])`: keep the first row for each
distinct value of column `c` (missing values count as one value). -/
def dropDupBy (rows : List Row) (c : String) : List Row :=
  (rows.foldl
    (fun (st : List Cell × List Row) r =>
      let k := rlookup r c
      if st.1.any (fun x => decide (x = k)) then st else (k :: st.1, st.2 ++ [r]))
    ([], [])).2

/-!  `business_metrics.calculate_revenue_metrics`. -/

/-- The group keys of `sales_df.groupby('order_id')`. -/
def orderKeys (df : DataFrame) : List Cell :=
  groupKeys (df.data.map (fun r => rlookup r "order_id"))

/-- `sales_df.groupby('order_id')[price_column].sum()`: the per-order sums. -/
def order_values (df : DataFrame) (price_column : String) : List FVal :=
  (orderKeys df).map (fun k =>
    colSum ((groupRows df.data "order_id" k).map (fun r => rlookup r price_column)))

/-- `sales_df.groupby('order_id').size()`: the per-order row counts. -/
def items_per_order (df : DataFrame) : List ℕ :=
  (orderKeys df).map (fun k => (groupRows df.data "order_id" k).length)

/-- The metrics dictionary of `calculate_revenue_metrics`. -/
structure RevenueMetrics where
  total_revenue : FVal
  total_orders : ℕ
  total_items : ℕ
  avg_item_price : FVal
  median_item_price : FVal
  avg_order_value : FVal
  median_order_value : FVal
  avg_items_per_order : FVal
  p25 : FVal
  p75 : FVal
  p90 : FVal
  p95 : FVal
deriving DecidableEq

/-- Finite parts of a list of floats (for the median of the order values). -/
def finsOf (vs : List FVal) : List ℚ :=
  vs.filterMap (fun v => match v with | FVal.fin q => some q | _ => none)

/-- Translation of `business_metrics.calculate_revenue_metrics`: total and
per-order revenue aggregates; reading a missing price or order-id column
raises KeyError (the unused `date_column` parameter of the source is kept). -/
def calculate_revenue_metrics (sales_df : DataFrame)
    (_date_column : String := "order_purchase_timestamp")
    (price_column : String := "price") : Except String RevenueMetrics := do
  let priceCol ← getCol sales_df price_column
  let orderCol ← getCol sales_df "order_id"
  let ovs := order_values sales_df price_column
  .ok {
    total_revenue := colSum priceCol
    total_orders := nunique orderCol
    total_items := sales_df.data.length
    avg_item_price := colMean priceCol
    median_item_price := colMedian priceCol
    avg_order_value := fmean ovs
    median_order_value := qmedian (finsOf ovs)
    avg_items_per_order := fmean ((items_per_order sales_df).map (fun n => FVal.fin n))
    p25 := colQuantile priceCol (1 / 4)
    p75 := colQuantile priceCol (3 / 4)
    p90 := colQuantile priceCol (9 / 10)
    p95 := colQuantile priceCol (19 / 20) }

/-!  `business_metrics.calculate_growth_metrics`. -/

/-- The metrics dictionary of `calculate_growth_metrics`. -/
structure GrowthMetrics where
  revenue_growth_pct : FVal
  order_growth_pct : FVal
  aov_growth_pct : FVal
  items_per_order_growth_pct : FVal
  revenue_change_absolute : FVal
  order_change_absolute : ℤ
deriving DecidableEq

/-- Translation of `business_metrics.calculate_growth_metrics`: the revenue,
AOV and items-per-order ratios are float divisions (IEEE sentinels on a zero
denominator), while the order-growth ratio divides the Python ints returned
by `nunique`, which raises ZeroDivisionError when the previous period has
zero distinct orders. -/
def calculate_growth_metrics (current_df previous_df : DataFrame)
    (price_column : String := "price") : Except String GrowthMetrics := do
  let c ← calculate_revenue_metrics current_df "order_purchase_timestamp" price_column
  let p ← calculate_revenue_metrics previous_df "order_purchase_timestamp" price_column
  let revenue_growth := (c.total_revenue.sub p.total_revenue).div p.total_revenue
  if p.total_orders = 0 then .error "ZeroDivisionError: division by zero"
  else
    let order_growth : ℚ := ((c.total_orders : ℚ) - (p.total_orders : ℚ)) / (p.total_orders : ℚ)
    let aov_growth := (c.avg_order_value.sub p.avg_order_value).div p.avg_order_value
    let items_growth :=
      (c.avg_items_per_order.sub p.avg_items_per_order).div p.avg_items_per_order
    .ok {
      revenue_growth_pct := revenue_growth.mul (FVal.fin 100)
      order_growth_pct := FVal.fin (order_growth * 100)
      aov_growth_pct := aov_growth.mul (FVal.fin 100)
      items_per_order_growth_pct := items_growth.mul (FVal.fin 100)
      revenue_change_absolute := c.total_revenue.sub p.total_revenue
      order_change_absolute := (c.total_orders : ℤ) - (p.total_orders : ℤ) }

/-!  `business_metrics.calculate_product_category_metrics`. -/

/-- The grouped category-metrics table (`category_sales.groupby(
'product_category_name').agg(...)` with the derived columns, revenue share
and descending sort by revenue). -/
def categoryMetricsTable (cs : DataFrame) (price_column : String) : DataFrame :=
  let keys := groupKeys (cs.data.map (fun r => rlookup r "product_category_name"))
  let baseRows : List Row := keys.map (fun k =>
    let g := groupRows cs.data "product_category_name" k
    let prices := g.map (fun r => rlookup r price_column)
    let rev := (colSum prices).round2
    let orders : ℕ := nunique (g.map (fun r => rlookup r "order_id"))
    let prods : ℕ := nunique (g.map (fun r => rlookup r "product_id"))
    [("product_category_name", k),
     ("total_revenue", some (Val.num rev)),
     ("avg_item_price", some (Val.num ((colMean prices).round2))),
     ("total_items", some (Val.num (FVal.fin (g.length : ℚ)))),
     ("total_orders", some (Val.num (FVal.fin (orders : ℚ)))),
     ("unique_products", some (Val.num (FVal.fin (prods : ℚ)))),
     ("avg_order_value", some (Val.num ((rev.div (FVal.fin (orders : ℚ))).round2))),
     ("items_per_order",
      some (Val.num (((FVal.fin (g.length : ℚ)).div (FVal.fin (orders : ℚ))).round2))),
     ("revenue_per_product", some (Val.num ((rev.div (FVal.fin (prods : ℚ))).round2)))])
  let totalRev := baseRows.foldl (fun a r => a.add (getNumCell r "total_revenue")) (FVal.fin 0)
  let withShare := baseRows.map (fun r => r ++
    [("revenue_share_pct",
      some (Val.num ((((getNumCell r "total_revenue").div totalRev).mul (FVal.fin 100)).round2)))])
  ⟨["product_category_name", "total_revenue", "avg_item_price", "total_items",
    "total_orders", "unique_products", "avg_order_value", "items_per_order",
    "revenue_per_product", "revenue_share_pct"],
   withShare.mergeSort (fun a b =>
     fvalDescLe (getNumCell a "total_revenue") (getNumCell b "total_revenue"))⟩

/-- Translation of `business_metrics.calculate_product_category_metrics`.
Missing-column situations print a warning (modelled as the returned string
list) and give an empty table instead of raising; a merge on a missing
`product_id` key, a lone duplicate-suffix column, or a groupby over missing
aggregate columns raises KeyError. -/
def calculate_product_category_metrics (sales_df products_df : DataFrame)
    (price_column : String := "price") : Except String (DataFrame × List String) :=
  if !(products_df.cols.contains "product_category_name") then
    .ok (emptyDF, ["Warning: 'product_category_name' not found in products_df"])
  else do
    let category_sales? ←
      if sales_df.cols.contains "product_category_name" then
        pure (some sales_df)
      else
        let merge_cols := ["product_id", "product_category_name"]
        let available := merge_cols.filter (fun c => products_df.cols.contains c)
        if available.length < 2 then pure none
        else do
          let sel ← selectCols products_df available
          let m ← mergeLeft sales_df sel "product_id"
          pure (some m)
    match category_sales? with
    | none => .ok (emptyDF, ["Warning: Required columns not available"])
    | some category_sales0 => do
      let category_sales ←
        if category_sales0.cols.contains "product_category_name_x" then
          if !(category_sales0.cols.contains "product_category_name_y") then
            .error "KeyError: product_category_name_y"
          else
            pure (dropCols
              (setColWith category_sales0 "product_category_name"
                (fun r =>
                  if cellna (rlookup r "product_category_name_x") then
                    rlookup r "product_category_name_y"
                  else rlookup r "product_category_name_x"))
              ["product_category_name_x", "product_category_name_y"])
        else pure category_sales0
      if !(category_sales.cols.contains "product_category_name") then
        .ok (emptyDF, ["Error: product_category_name not found after merge"])
      else
        let cs := dropnaCol category_sales "product_category_name"
        if cs.data.isEmpty then
          .ok (emptyDF, ["Warning: No data available after removing null categories"])
        else do
          let _ ← getCol cs price_column
          let _ ← getCol cs "order_id"
          let _ ← getCol cs "product_id"
          .ok (categoryMetricsTable cs price_column, [])

/-!  `business_metrics.calculate_geographic_metrics`. -/

/-- The grouping key of a (possibly multi-column) groupby. -/
def multiKey (r : Row) (gcs : List String) : List Cell := gcs.map (fun c => rlookup r c)

/-- Group keys of a groupby on several columns (rows with any missing key
component are dropped, as in pandas). -/
def geoKeys (rows : List Row) (gcs : List String) : List (List Cell) :=
  ((rows.map (fun r => multiKey r gcs)).filter (fun k => k.all (fun c => !(cellna c)))).dedup

/-- The grouped geography-metrics table with derived columns, revenue share
and descending sort by revenue. -/
def geoMetricsTable (df : DataFrame) (group_col : List String) (price_column : String) :
    DataFrame :=
  let keys := geoKeys df.data group_col
  let baseRows : List Row := keys.map (fun k =>
    let g := df.data.filter (fun r => decide (multiKey r group_col = k))
    let prices := g.map (fun r => rlookup r price_column)
    let rev := (colSum prices).round2
    let orders : ℕ := nunique (g.map (fun r => rlookup r "order_id"))
    let custs : ℕ := nunique (g.map (fun r => rlookup r "customer_id"))
    (group_col.zip k) ++
    [("total_revenue", some (Val.num rev)),
     ("avg_item_price", some (Val.num ((colMean prices).round2))),
     ("total_orders", some (Val.num (FVal.fin (orders : ℚ)))),
     ("unique_customers", some (Val.num (FVal.fin (custs : ℚ)))),
     ("avg_order_value", some (Val.num ((rev.div (FVal.fin (orders : ℚ))).round2))),
     ("revenue_per_customer", some (Val.num ((rev.div (FVal.fin (custs : ℚ))).round2))),
     ("orders_per_customer",
      some (Val.num (((FVal.fin (orders : ℚ)).div (FVal.fin (custs : ℚ))).round2)))])
  let totalRev := baseRows.foldl (fun a r => a.add (getNumCell r "total_revenue")) (FVal.fin 0)
  let withShare := baseRows.map (fun r => r ++
    [("revenue_share_pct",
      some (Val.num ((((getNumCell r "total_revenue").div totalRev).mul (FVal.fin 100)).round2)))])
  ⟨group_col ++ ["total_revenue", "avg_item_price", "total_orders", "unique_customers",
    "avg_order_value", "revenue_per_customer", "orders_per_customer", "revenue_share_pct"],
   withShare.mergeSort (fun a b =>
     fvalDescLe (getNumCell a "total_revenue") (getNumCell b "total_revenue"))⟩

/-- Translation of `business_metrics.calculate_geographic_metrics`: reuses an
existing `customer_state` column at state level, otherwise joins the
customer-id and geography columns in; missing-column situations give an
empty table plus a warning, missing merge keys raise KeyError. -/
def calculate_geographic_metrics (sales_df orders_df customers_df : DataFrame)
    (price_column : String := "price") (geographic_level : String := "state") :
    Except String (DataFrame × List String) := do
  let branch ←
    if geographic_level == "state" && sales_df.cols.contains "customer_state" then
      pure (some (sales_df, ["customer_state"]))
    else do
      let step1 ←
        if !(sales_df.cols.contains "customer_id") then do
          let sel ← selectCols orders_df ["order_id", "customer_id"]
          mergeLeft sales_df sel "order_id"
        else pure sales_df
      let geo_cols :=
        if geographic_level == "state" then ["customer_id", "customer_state"]
        else if geographic_level == "city" then
          ["customer_id", "customer_state", "customer_city"]
        else ["customer_id", "customer_state", "customer_city", "customer_zip_code_prefix"]
      let group_col :=
        if geographic_level == "state" then ["customer_state"]
        else if geographic_level == "city" then ["customer_state", "customer_city"]
        else ["customer_state", "customer_zip_code_prefix"]
      let available := geo_cols.filter (fun c => customers_df.cols.contains c)
      if available.length < 2 then pure none
      else do
        let sel ← selectCols customers_df available
        let m ← mergeLeft step1 sel "customer_id"
        pure (some (m, group_col))
  match branch with
  | none => .ok (emptyDF, ["Warning: Insufficient geographic columns available"])
  | some (geo_sales0, group_col0) =>
    if geographic_level == "state" && !(geo_sales0.cols.contains "customer_state") then
      .ok (emptyDF, ["Error: customer_state column not found"])
    else
      let geo_sales :=
        if geographic_level == "state" then dropnaCol geo_sales0 "customer_state"
        else geo_sales0
      let group_col :=
        if geographic_level == "state" then ["customer_state"] else group_col0
      if geo_sales.data.isEmpty then
        .ok (emptyDF, ["Warning: No geographic data available after filtering"])
      else if !(group_col.all (fun c => geo_sales.cols.contains c)) then
        .ok (emptyDF, ["Warning: Missing columns for grouping"])
      else do
        let _ ← getCol geo_sales price_column
        let _ ← getCol geo_sales "order_id"
        let _ ← getCol geo_sales "customer_id"
        .ok (geoMetricsTable geo_sales group_col price_column, [])

/-!  `business_metrics.calculate_customer_experience_metrics`. -/

/-- The metrics dictionary of `calculate_customer_experience_metrics`; keys
that the source only sets conditionally are optional.  The correlation
coefficient is recorded by the triple (Sxy, Sxx, Syy) of centred second
moments; the pandas value is Sxy divided by the square root of Sxx * Syy. -/
structure ExperienceMetrics where
  avg_review_score : Option FVal := none
  median_review_score : Option FVal := none
  review_score_distribution : Option (List (Val × ℚ)) := none
  satisfaction_rate_pct : Option FVal := none
  avg_delivery_days : Option FVal := none
  median_delivery_days : Option FVal := none
  delivery_speed_distribution : Option (List (Val × ℚ)) := none
  fast_delivery_rate_pct : Option FVal := none
  delivery_speed_vs_satisfaction : Option (List (Val × FVal × ℕ)) := none
  delivery_satisfaction_correlation : Option (ℚ × ℚ × ℚ) := none
deriving DecidableEq

/-- Is a review-score cell `>= 4` (missing values compare false)? -/
def cellGe4 : Cell → Bool
  | some (Val.num (FVal.fin q)) => decide (4 ≤ q)
  | some (Val.num FVal.inf) => true
  | _ => false

/-- Is a delivery-days cell `<= 3` (missing values compare false)? -/
def cellLe3 : Cell → Bool
  | some (Val.num (FVal.fin q)) => decide (q ≤ 3)
  | some (Val.num FVal.neginf) => true
  | _ => false

/-- Centred second moments (Sxy, Sxx, Syy) of a list of points. -/
def corrMoments (ps : List (ℚ × ℚ)) : ℚ × ℚ × ℚ :=
  let n : ℚ := ps.length
  let mx := (ps.map Prod.fst).sum / n
  let my := (ps.map Prod.snd).sum / n
  ((ps.map (fun p => (p.1 - mx) * (p.2 - my))).sum,
   (ps.map (fun p => (p.1 - mx) * (p.1 - mx))).sum,
   (ps.map (fun p => (p.2 - my) * (p.2 - my))).sum)

/-- Translation of `business_metrics.calculate_customer_experience_metrics`:
joins review scores in when absent, resolves `_x`/`_y` duplicates by keeping
the column with more data, deduplicates to order level for delivery metrics,
and fills each metric key only under the source's guards.  Selecting review
columns that the reviews table lacks, merging on a missing `order_id`, or
deduplicating on a missing `order_id` raises KeyError. -/
def calculate_customer_experience_metrics (sales_df reviews_df : DataFrame) :
    Except String ExperienceMetrics := do
  let experience_df0 ←
    if sales_df.cols.contains "review_score" then pure sales_df
    else do
      let sel ← selectCols reviews_df ["order_id", "review_score"]
      mergeLeft sales_df sel "order_id"
  let experience_df :=
    if experience_df0.cols.contains "review_score_x"
        && experience_df0.cols.contains "review_score_y" then
      let xs := experience_df0.data.map (fun r => rlookup r "review_score_x")
      let ys := experience_df0.data.map (fun r => rlookup r "review_score_y")
      let src :=
        if (xs.filter (fun c => !(cellna c))).length
            < (ys.filter (fun c => !(cellna c))).length then "review_score_y"
        else "review_score_x"
      dropCols (setColWith experience_df0 "review_score" (fun r => rlookup r src))
        ["review_score_x", "review_score_y"]
    else experience_df0
  if !(experience_df.cols.contains "order_id") then .error "KeyError: order_id"
  else
    let order_level := dropDupBy experience_df.data "order_id"
    let scoreCells := experience_df.data.map (fun r => rlookup r "review_score")
    let reviewPart : ExperienceMetrics :=
      if experience_df.cols.contains "review_score"
          && scoreCells.any (fun c => !(cellna c)) then
        let high := (scoreCells.filter cellGe4).length
        let total := (scoreCells.filter (fun c => !(cellna c))).length
        { avg_review_score := some (colMean scoreCells)
          median_review_score := some (colMedian scoreCells)
          review_score_distribution := some (valueCountsNorm scoreCells)
          satisfaction_rate_pct :=
            some (if 0 < total then FVal.fin ((high : ℚ) / (total : ℚ) * 100)
                  else FVal.fin 0) }
      else {}
    let deliveryPart : ExperienceMetrics :=
      if experience_df.cols.contains "delivery_days" then
        let delivery_data := order_level.filter (fun r => !(cellna (rlookup r "delivery_days")))
        if !(delivery_data.isEmpty) then
          let dCells := delivery_data.map (fun r => rlookup r "delivery_days")
          let fast := (dCells.filter cellLe3).length
          let total := delivery_data.length
          { avg_delivery_days := some (colMean dCells)
            median_delivery_days := some (colMedian dCells)
            delivery_speed_distribution :=
              if experience_df.cols.contains "delivery_speed_category" then
                some (valueCountsNorm
                  (delivery_data.map (fun r => rlookup r "delivery_speed_category")))
              else none
            fast_delivery_rate_pct :=
              some (if 0 < total then FVal.fin ((fast : ℚ) / (total : ℚ) * 100)
                    else FVal.fin 0) }
        else {}
      else {}
    let corrPart : ExperienceMetrics :=
      if experience_df.cols.contains "delivery_days"
          && experience_df.cols.contains "review_score" then
        let corr_rows := experience_df.data.filter (fun r =>
          !(cellna (rlookup r "delivery_days")) && !(cellna (rlookup r "review_score")))
        if 10 < corr_rows.length then
          let ps : List (ℚ × ℚ) := corr_rows.filterMap (fun r =>
            match rlookup r "delivery_days", rlookup r "review_score" with
            | some (Val.num (FVal.fin a)), some (Val.num (FVal.fin b)) => some (a, b)
            | _, _ => none)
          { delivery_speed_vs_satisfaction :=
              if experience_df.cols.contains "delivery_speed_category" then
                some ((groupKeys (corr_rows.map (fun r =>
                    rlookup r "delivery_speed_category"))).filterMap (fun k =>
                  let g := groupRows corr_rows "delivery_speed_category" k
                  let ss := g.map (fun r => rlookup r "review_score")
                  match k with
                  | some v => some (v, colMean ss, (ss.filter (fun c => !(cellna c))).length)
                  | none => none))
              else none
            delivery_satisfaction_correlation := some (corrMoments ps) }
        else {}
      else {}
    .ok { avg_review_score := reviewPart.avg_review_score
          median_review_score := reviewPart.median_review_score
          review_score_distribution := reviewPart.review_score_distribution
          satisfaction_rate_pct := reviewPart.satisfaction_rate_pct
          avg_delivery_days := deliveryPart.avg_delivery_days
          median_delivery_days := deliveryPart.median_delivery_days
          delivery_speed_distribution := deliveryPart.delivery_speed_distribution
          fast_delivery_rate_pct := deliveryPart.fast_delivery_rate_pct
          delivery_speed_vs_satisfaction := corrPart.delivery_speed_vs_satisfaction
          delivery_satisfaction_correlation := corrPart.delivery_satisfaction_correlation }

/-!  `business_metrics.calculate_operational_metrics`. -/

/-- The metrics dictionary of `calculate_operational_metrics`. -/
structure OperationalMetrics where
  order_status_distribution : Option (List (Val × ℚ)) := none
  delivery_rate_pct : Option ℚ := none
  cancellation_rate_pct : Option ℚ := none
  return_rate_pct : Option ℚ := none
  delivered_revenue : FVal := FVal.fin 0
  fulfillment_rate_pct : Option ℚ := none
deriving DecidableEq

/-- `dist.get(key, 0)` on a value-counts distribution. -/
def distGet (d : List (Val × ℚ)) (k : String) : ℚ :=
  match d.find? (fun p => p.1 == Val.str k) with
  | some p => p.2
  | none => 0

/-- Translation of `business_metrics.calculate_operational_metrics`: status
distribution and rates from the orders table, revenue of delivered sales,
and the fulfillment rate.  Every access is guarded by a column-presence
check, so the function is total. -/
def calculate_operational_metrics (sales_df orders_df : DataFrame) : OperationalMetrics :=
  let statusDist : Option (List (Val × ℚ)) :=
    if orders_df.cols.contains "order_status" then
      some (valueCountsNorm (orders_df.data.map (fun r => rlookup r "order_status")))
    else none
  let delivered_sales :=
    if sales_df.cols.contains "order_status" then
      filterRows sales_df (fun r => decide (rlookup r "order_status" = some (Val.str "delivered")))
    else sales_df
  { order_status_distribution := statusDist
    delivery_rate_pct := statusDist.map (fun d => distGet d "delivered" * 100)
    cancellation_rate_pct := statusDist.map (fun d => distGet d "canceled" * 100)
    return_rate_pct := statusDist.map (fun d => distGet d "returned" * 100)
    delivered_revenue :=
      if delivered_sales.cols.contains "price" then
        colSum (delivered_sales.data.map (fun r => rlookup r "price"))
      else FVal.fin 0
    fulfillment_rate_pct :=
      if orders_df.cols.contains "order_status" then
        some (if 0 < orders_df.data.length then
          (((orders_df.data.filter (fun r =>
              decide (rlookup r "order_status" = some (Val.str "delivered"))
              || decide (rlookup r "order_status" = some (Val.str "shipped")))).length : ℚ)
            / (orders_df.data.length : ℚ) * 100)
          else 0)
      else none }

/-!  `business_metrics.calculate_cohort_metrics`. -/

/-- The month index of `dt.to_period('M')`: differences of this index are the
`period_number` month counts of the source. -/
def monthIdx (d : Date) : ℤ := 12 * d.year + d.month

/-- The (customer, purchase date) pairs the cohort analysis runs on: rows
whose customer key is non-na (a pandas groupby drops missing keys) and whose
date is present. -/
def cohortPairs (df : DataFrame) (date_column customer_column : String) :
    List (Val × Date) :=
  df.data.filterMap (fun r =>
    match rlookup r customer_column, rlookup r date_column with
    | some cv, some (Val.date d) =>
        if cellna (some cv) then none else some (cv, d)
    | _, _ => none)

/-- The earliest date of a list (ties keep the earlier entry), as
`groupby(customer)[date].min()`. -/
def dateMinBy : List Date → Option Date
  | [] => none
  | d :: ds => some (ds.foldl (fun a b => if b.t < a.t then b else a) d)

/-- A customer's cohort month: the month of its first purchase. -/
def cohortOf (ps : List (Val × Date)) (cv : Val) : Option ℤ :=
  (dateMinBy ((ps.filter (fun p => decide (p.1 = cv))).map Prod.snd)).map monthIdx

/-- The distinct customers of the pair list. -/
def customersOf (ps : List (Val × Date)) : List Val := (ps.map Prod.fst).dedup

/-- The row index of the pivoted cohort table: the cohort months present. -/
def cohortIndex (ps : List (Val × Date)) : List ℤ :=
  ((customersOf ps).filterMap (cohortOf ps)).dedup

/-- One cell of the retention table: the number of distinct customers of
cohort `c` active in period `p`, divided by the cohort's size (`none` models
the NaN of an absent pivot cell). -/
def retentionCell (ps : List (Val × Date)) (c : ℤ) (p : ℤ) : Option ℚ :=
  let active := ((ps.filter (fun pr =>
    decide (cohortOf ps pr.1 = some c) && decide (monthIdx pr.2 - c = p))).map
      Prod.fst).dedup.length
  let size := ((ps.filter (fun pr => decide (cohortOf ps pr.1 = some c))).map
      Prod.fst).dedup.length
  if active = 0 then none else some ((active : ℚ) / (size : ℚ))

/-- The pivoted retention table: its row index and a cell accessor. -/
structure CohortTable where
  index : List ℤ
  cell : ℤ → ℤ → Option ℚ

/-- Translation of `business_metrics.calculate_cohort_metrics`: assign each
customer the month of its first purchase as cohort, count distinct active
customers per (cohort, months-since-first-purchase), pivot, and divide each
cohort row by the cohort size. -/
def calculate_cohort_metrics (sales_df : DataFrame)
    (date_column : String := "order_purchase_timestamp")
    (customer_column : String := "customer_id") : CohortTable :=
  let ps := cohortPairs sales_df date_column customer_column
  { index := cohortIndex ps, cell := fun c p => retentionCell ps c p }

/-!  `business_metrics.generate_metrics_summary`. -/

/-- The summary dictionary: one optional entry per metric group (a group the
single `try` block never reached, or the one that raised, is absent), plus
the flag that `warnings.warn` ran. -/
structure MetricsSummary where
  period : String
  revenue : Option RevenueMetrics
  categories : Option DataFrame
  geography : Option DataFrame
  customer_experience : Option ExperienceMetrics
  operations : Option OperationalMetrics
  warned : Bool

/-- Translation of `business_metrics.generate_metrics_summary`: the five
metric groups are computed in sequence inside one `try` block, so the first
exception converts to a warning and ends the block — groups computed before
it stay in the summary, the failing group and every later group are absent. -/
def generate_metrics_summary (sales_df products_df orders_df customers_df reviews_df : DataFrame)
    (analysis_period : String := "Current Period") : MetricsSummary :=
  match calculate_revenue_metrics sales_df "order_purchase_timestamp" "price" with
  | .error _ => ⟨analysis_period, none, none, none, none, none, true⟩
  | .ok rev =>
    match calculate_product_category_metrics sales_df products_df "price" with
    | .error _ => ⟨analysis_period, some rev, none, none, none, none, true⟩
    | .ok (cats, _) =>
      match calculate_geographic_metrics sales_df orders_df customers_df "price" "state" with
      | .error _ => ⟨analysis_period, some rev, some cats, none, none, none, true⟩
      | .ok (geo, _) =>
        match calculate_customer_experience_metrics sales_df reviews_df with
        | .error _ => ⟨analysis_period, some rev, some cats, some geo, none, none, true⟩
        | .ok cx =>
          ⟨analysis_period, some rev, some cats, some geo, some cx,
           some (calculate_operational_metrics sales_df orders_df), false⟩

/-!  Concrete sample tables used to evaluate the development on closed
inputs, plus the combined date-range mask. -/

/-- Shorthand for a string cell. -/
def sv (s : String) : Cell := some (Val.str s)

/-- Shorthand for a finite numeric cell. -/
def nv (q : ℚ) : Cell := some (Val.num (FVal.fin q))

/-- Shorthand for a timestamp cell. -/
def dv (t : ℤ) (y m : ℤ) : Cell := some (Val.date ⟨t, y, m⟩)

/-- The combined predicate of the date-range filter: a row passes when its
year meets both inclusive year bounds and its month meets both inclusive
month bounds, independently of the year. -/
def dateRangeMask (start_year end_year start_month end_month : Option ℤ)
    (date_column : String) (r : Row) : Bool :=
  passLB (cellYear (rlookup r date_column)) start_year
    && passUB (cellYear (rlookup r date_column)) end_year
    && passLB (cellMonth (rlookup r date_column)) start_month
    && passUB (cellMonth (rlookup r date_column)) end_month

/-- A small sales table: two items of order o1 and one item of order o2. -/
def tblSales : DataFrame :=
  ⟨["order_id", "product_id", "price", "order_status"],
   [[("order_id", sv "o1"), ("product_id", sv "p1"), ("price", nv 10),
     ("order_status", sv "delivered")],
    [("order_id", sv "o1"), ("product_id", sv "p2"), ("price", nv 5),
     ("order_status", sv "delivered")],
    [("order_id", sv "o2"), ("product_id", sv "p1"), ("price", nv 7),
     ("order_status", sv "delivered")]]⟩

/-- A small products table. -/
def tblProducts : DataFrame :=
  ⟨["product_id", "product_category_name"],
   [[("product_id", sv "p1"), ("product_category_name", sv "toys")],
    [("product_id", sv "p2"), ("product_category_name", sv "books")]]⟩

/-- A small orders table. -/
def tblOrders : DataFrame :=
  ⟨["order_id", "customer_id", "order_status"],
   [[("order_id", sv "o1"), ("customer_id", sv "c1"), ("order_status", sv "delivered")],
    [("order_id", sv "o2"), ("customer_id", sv "c2"), ("order_status", sv "delivered")]]⟩

/-- A small customers table. -/
def tblCustomers : DataFrame :=
  ⟨["customer_id", "customer_state"],
   [[("customer_id", sv "c1"), ("customer_state", sv "SP")],
    [("customer_id", sv "c2"), ("customer_state", sv "RJ")]]⟩

/-- A small reviews table. -/
def tblReviews : DataFrame :=
  ⟨["order_id", "review_score", "review_creation_date"],
   [[("order_id", sv "o1"), ("review_score", nv 5),
     ("review_creation_date", sv "2023-01-05")]]⟩

/-- A reviews table carrying only the order id. -/
def tblReviewsBare : DataFrame := ⟨["order_id"], [[("order_id", sv "o1")]]⟩

/-- A small order-items table. -/
def tblItems : DataFrame :=
  ⟨["order_id", "order_item_id", "product_id", "price", "freight_value"],
   [[("order_id", sv "o1"), ("order_item_id", nv 1), ("product_id", sv "p1"),
     ("price", nv 10), ("freight_value", nv 2)],
    [("order_id", sv "o3"), ("order_item_id", nv 1), ("product_id", sv "p2"),
     ("price", nv 5), ("freight_value", nv 1)]]⟩

/-- An empty previous-period table (with the needed columns). -/
def tblEmptySales : DataFrame := ⟨["order_id", "price"], []⟩

/-- A previous-period table with one order and total revenue zero (its only
price cell is missing, so the skipna sum is `0.0`). -/
def tblZeroRevSales : DataFrame :=
  ⟨["order_id", "price"], [[("order_id", sv "o1"), ("price", (none : Cell))]]⟩

/-- A table of timestamps across years and months. -/
def tblDates : DataFrame :=
  ⟨["order_purchase_timestamp"],
   [[("order_purchase_timestamp", dv 738000 2022 3)],
    [("order_purchase_timestamp", dv 738300 2023 1)],
    [("order_purchase_timestamp", dv 738500 2023 8)]]⟩

/-- A table for the cohort analysis: customer c1 first buys in 2023-01 and
returns in 2023-02, customer c2 first buys in 2023-02. -/
def tblCohort : DataFrame :=
  ⟨["customer_id", "order_purchase_timestamp"],
   [[("customer_id", sv "c1"), ("order_purchase_timestamp", dv 100 2023 1)],
    [("customer_id", sv "c1"), ("order_purchase_timestamp", dv 140 2023 2)],
    [("customer_id", sv "c2"), ("order_purchase_timestamp", dv 135 2023 2)]]⟩

/-- The sales table enriched once with product categories. -/
def tblCatEnriched : DataFrame :=
  (add_product_categories tblSales tblProducts).toOption.getD emptyDF

/-- The sales table enriched once with review data. -/
def tblReviewEnriched : DataFrame :=
  (add_review_data tblSales tblReviews).toOption.getD emptyDF

/-- The sales table enriched twice with review data. -/
def tblReviewTwice : DataFrame :=
  (add_review_data tblReviewEnriched tblReviews).toOption.getD emptyDF

/-- A junk record used as the default of `Option.getD` on metric results. -/
def junkRevenueMetrics : RevenueMetrics :=
  ⟨FVal.nan, 0, 0, FVal.nan, FVal.nan, FVal.nan, FVal.nan, FVal.nan,
   FVal.nan, FVal.nan, FVal.nan, FVal.nan⟩

/-- The revenue metrics of the sample sales table. -/
def tblSalesRev : RevenueMetrics :=
  (calculate_revenue_metrics tblSales "order_purchase_timestamp" "price").toOption.getD
    junkRevenueMetrics

/-- The category metrics (with warnings) of the sample tables. -/
def tblSalesCat : DataFrame × List String :=
  (calculate_product_category_metrics tblSales tblProducts "price").toOption.getD
    (emptyDF, [])

/-- The state-level geographic metrics (with warnings) of the sample tables. -/
def tblSalesGeo : DataFrame × List String :=
  (calculate_geographic_metrics tblSales tblOrders tblCustomers "price" "state").toOption.getD
    (emptyDF, [])

/-- The summary of the sample tables when the reviews table lacks the review
score column (so the customer-experience group raises). -/
def tblSummary : MetricsSummary :=
  generate_metrics_summary tblSales tblProducts tblOrders tblCustomers tblReviewsBare
    "Current Period"

/-!  Theorems. -/

/-- Claim C8: `categorize_delivery_speed` maps a null duration to "Unknown",
a duration of at most 3 days to "1-3 days", a duration of more than 3 and at
most 7 days to "4-7 days", and a duration of more than 7 days to "8+ days";
in particular the durations 1, 5, 10 map to the three named buckets. -/
theorem categorize_delivery_speed_buckets :
    categorize_delivery_speed none = "Unknown"
    ∧ (∀ d : ℚ, d ≤ 3 → categorize_delivery_speed (some d) = "1-3 days")
    ∧ (∀ d : ℚ, 3 < d → d ≤ 7 → categorize_delivery_speed (some d) = "4-7 days")
    ∧ (∀ d : ℚ, 7 < d → categorize_delivery_speed (some d) = "8+ days")
    ∧ ([(1 : ℚ), 5, 10].map (fun q => categorize_delivery_speed (some q)))
        = ["1-3 days", "4-7 days", "8+ days"] := by
  refine ⟨rfl, ?_, ?_, ?_, by decide⟩
  · intro d h
    simp [categorize_delivery_speed, h]
  · intro d h1 h2
    simp [categorize_delivery_speed, h2, not_le.2 h1]
  · intro d h
    have h3 : ¬ d ≤ 3 := not_le.2 (lt_trans (by norm_num) h)
    have h7 : ¬ d ≤ 7 := not_le.2 h
    simp [categorize_delivery_speed, h3, h7]

/-- Witness for C8 on the concrete durations 2, 5 and 10. -/
theorem categorize_delivery_speed_buckets_witness :
    categorize_delivery_speed (some 2) = "1-3 days"
    ∧ categorize_delivery_speed (some 5) = "4-7 days"
    ∧ categorize_delivery_speed (some 10) = "8+ days" :=
  ⟨categorize_delivery_speed_buckets.2.1 2 (by norm_num),
   categorize_delivery_speed_buckets.2.2.1 5 (by norm_num) (by norm_num),
   categorize_delivery_speed_buckets.2.2.2.1 10 (by norm_num)⟩

/-- Claim C10: every non-null duration that is negative or zero lands in the
fastest bucket "1-3 days" (not in "Unknown" and not in a separate bucket),
because the only guard before the `days <= 3` branch is the null check. -/
theorem categorize_nonpositive_fastest :
    ∀ d : ℚ, d ≤ 0 → categorize_delivery_speed (some d) = "1-3 days" := by
  intro d h
  simp [categorize_delivery_speed, le_trans h (by norm_num : (0 : ℚ) ≤ 3)]

/-- Witness for C10 at the concrete duration -5. -/
theorem categorize_nonpositive_fastest_witness :
    categorize_delivery_speed (some (-5)) = "1-3 days" :=
  categorize_nonpositive_fastest (-5) (by norm_num)

/-- Claim C9: whenever the products table lacks the `product_category_name`
column, `calculate_product_category_metrics` returns an empty table together
with a warning instead of raising (the sales table, being an untouched input
of this pure translation, is unaffected). -/
theorem category_metrics_missing_column :
    ∀ (sales products : DataFrame) (price : String),
      "product_category_name" ∉ products.cols →
      calculate_product_category_metrics sales products price =
        .ok (emptyDF, ["Warning: 'product_category_name' not found in products_df"]) := by
  intro s p pr h
  simp [calculate_product_category_metrics, h]

/-- Witness for C9 on a products table with only a `product_id` column. -/
theorem category_metrics_missing_column_witness :
    calculate_product_category_metrics tblSales ⟨["product_id"], []⟩ "price" =
      .ok (emptyDF, ["Warning: 'product_category_name' not found in products_df"]) :=
  category_metrics_missing_column tblSales ⟨["product_id"], []⟩ "price" (by decide)

/-- Claim C6: on a table with the date column present,
`filter_data_by_date_range` keeps exactly the rows passing the four
inclusive bounds, with each month bound evaluated globally over all rows
surviving the year bounds (not separately within each selected year). -/
theorem date_range_filter_global :
    ∀ (df : DataFrame) (sy ey sm em : Option ℤ) (c : String),
      c ∈ df.cols →
      filter_data_by_date_range df sy ey sm em c =
        ⟨df.cols, df.data.filter (dateRangeMask sy ey sm em c)⟩ := by
  intro df sy ey sm em c h
  have hb : df.cols.contains c = true := by simpa using h
  simp only [filter_data_by_date_range, hb, Bool.not_true, Bool.false_eq_true, if_false,
    filterRows]
  rw [List.filter_filter, List.filter_filter, List.filter_filter]
  congr 1
  apply List.filter_congr
  intro r _
  simp only [dateRangeMask]
  cases hA : passLB (cellYear (rlookup r c)) sy <;>
    cases hB : passUB (cellYear (rlookup r c)) ey <;>
      cases hC : passLB (cellMonth (rlookup r c)) sm <;>
        cases hD : passUB (cellMonth (rlookup r c)) em <;> rfl

/-- Witness for C6: year lower bound 2023 with month lower bound 3 on the
sample date table. -/
theorem date_range_filter_global_witness :
    filter_data_by_date_range tblDates (some 2023) none (some 3) none
        "order_purchase_timestamp" =
      ⟨tblDates.cols, tblDates.data.filter
        (dateRangeMask (some 2023) none (some 3) none "order_purchase_timestamp")⟩ :=
  date_range_filter_global tblDates (some 2023) none (some 3) none
    "order_purchase_timestamp" (by decide)

/-- Helper: a growth ratio against a zero previous float value is always one
of the IEEE sentinels after the `* 100` scaling. -/
theorem sentinel_of_zero_denom (v : FVal) :
    ((v.sub (FVal.fin 0)).div (FVal.fin 0)).mul (FVal.fin 100) = FVal.inf
    ∨ ((v.sub (FVal.fin 0)).div (FVal.fin 0)).mul (FVal.fin 100) = FVal.neginf
    ∨ ((v.sub (FVal.fin 0)).div (FVal.fin 0)).mul (FVal.fin 100) = FVal.nan := by
  rcases v with q | _ | _ | _
  · rcases lt_trichotomy q 0 with h | h | h
    · right; left
      simp [FVal.sub, FVal.div, FVal.mul, sub_zero, h.ne, not_lt.2 h.le]
    · right; right
      simp [FVal.sub, FVal.div, FVal.mul, sub_zero, h]
    · left
      simp [FVal.sub, FVal.div, FVal.mul, sub_zero, h, h.ne.symm]
  · left
    simp [FVal.sub, FVal.div, FVal.mul]
  · right; left
    simp [FVal.sub, FVal.div, FVal.mul]
  · right; right
    simp [FVal.sub, FVal.div, FVal.mul]

/-- Counterexample to claim C3: with an empty previous-period table every
previous metric is zero (total revenue `0.0`, zero distinct orders), yet
`calculate_growth_metrics` raises ZeroDivisionError on the integer
order-growth ratio instead of returning a guarded sentinel. -/
theorem growth_empty_previous_raises :
    (calculate_revenue_metrics tblEmptySales "order_purchase_timestamp" "price").map
        (fun m => (m.total_revenue, m.total_orders)) = .ok (FVal.fin 0, 0)
    ∧ calculate_growth_metrics tblSales tblEmptySales "price" =
        .error "ZeroDivisionError: division by zero" :=
  ⟨rfl, rfl⟩

/-- Claim C3 as amended: when the previous period has zero total revenue but
a nonzero number of distinct orders, the revenue-growth percentage is an
IEEE sentinel (inf, -inf or NaN) and no exception is raised; when the
previous period has zero distinct orders, the Python integer division raises
ZeroDivisionError instead of returning a sentinel. -/
theorem growth_zero_denominator_behavior :
    (∀ cur prev : DataFrame,
      (calculate_revenue_metrics cur "order_purchase_timestamp" "price").isOk = true →
      (calculate_revenue_metrics prev "order_purchase_timestamp" "price").map
          (fun m => m.total_orders) = .ok 0 →
      calculate_growth_metrics cur prev "price" = .error "ZeroDivisionError: division by zero")
    ∧ (∀ (cur prev : DataFrame) (n : ℕ),
      (calculate_revenue_metrics cur "order_purchase_timestamp" "price").isOk = true →
      (calculate_revenue_metrics prev "order_purchase_timestamp" "price").map
          (fun m => (m.total_revenue, m.total_orders)) = .ok (FVal.fin 0, n) →
      n ≠ 0 →
      (calculate_growth_metrics cur prev "price").isOk = true
      ∧ ∀ g, calculate_growth_metrics cur prev "price" = .ok g →
          g.revenue_growth_pct = FVal.inf ∨ g.revenue_growth_pct = FVal.neginf
            ∨ g.revenue_growth_pct = FVal.nan) := by
  constructor
  · intro cur prev hok hmap
    obtain ⟨mc, hc⟩ : ∃ m,
        calculate_revenue_metrics cur "order_purchase_timestamp" "price" = .ok m := by
      cases hE : calculate_revenue_metrics cur "order_purchase_timestamp" "price" with
      | ok m => exact ⟨m, rfl⟩
      | error e => rw [hE] at hok; simp [Except.isOk, Except.toBool] at hok
    cases hP : calculate_revenue_metrics prev "order_purchase_timestamp" "price" with
    | error e => rw [hP] at hmap; simp [Except.map] at hmap
    | ok mp =>
      rw [hP] at hmap
      simp only [Except.map, Except.ok.injEq] at hmap
      simp [calculate_growth_metrics, hc, hP, hmap, Bind.bind, Except.bind]
  · intro cur prev n hok hmap hn
    obtain ⟨mc, hc⟩ : ∃ m,
        calculate_revenue_metrics cur "order_purchase_timestamp" "price" = .ok m := by
      cases hE : calculate_revenue_metrics cur "order_purchase_timestamp" "price" with
      | ok m => exact ⟨m, rfl⟩
      | error e => rw [hE] at hok; simp [Except.isOk, Except.toBool] at hok
    cases hP : calculate_revenue_metrics prev "order_purchase_timestamp" "price" with
    | error e => rw [hP] at hmap; simp [Except.map] at hmap
    | ok mp =>
      rw [hP] at hmap
      simp only [Except.map, Except.ok.injEq, Prod.mk.injEq] at hmap
      obtain ⟨hrev, hord⟩ := hmap
      have hord0 : ¬ (mp.total_orders = 0) := by rw [hord]; exact hn
      have hG : calculate_growth_metrics cur prev "price" =
          .ok {
            revenue_growth_pct :=
              ((mc.total_revenue.sub mp.total_revenue).div mp.total_revenue).mul (FVal.fin 100)
            order_growth_pct :=
              FVal.fin (((mc.total_orders : ℚ) - (mp.total_orders : ℚ))
                / (mp.total_orders : ℚ) * 100)
            aov_growth_pct :=
              ((mc.avg_order_value.sub mp.avg_order_value).div mp.avg_order_value).mul
                (FVal.fin 100)
            items_per_order_growth_pct :=
              ((mc.avg_items_per_order.sub mp.avg_items_per_order).div
                mp.avg_items_per_order).mul (FVal.fin 100)
            revenue_change_absolute := mc.total_revenue.sub mp.total_revenue
            order_change_absolute := (mc.total_orders : ℤ) - (mp.total_orders : ℤ) } := by
        simp [calculate_growth_metrics, hc, hP, hord0, Bind.bind, Except.bind]
      refine ⟨by rw [hG]; rfl, ?_⟩
      intro g hg
      rw [hG] at hg
      injection hg with hgv
      rw [← hgv]
      rw [hrev]
      exact sentinel_of_zero_denom mc.total_revenue

/-- Witness for C3's amended statement: the empty previous table raises, the
zero-revenue previous table gives a sentinel result without an exception. -/
theorem growth_zero_denominator_behavior_witness :
    calculate_growth_metrics tblSales tblEmptySales "price" =
        .error "ZeroDivisionError: division by zero"
    ∧ (calculate_growth_metrics tblSales tblZeroRevSales "price").isOk = true := by
  constructor
  · exact growth_zero_denominator_behavior.1 tblSales tblEmptySales (by rfl) (by rfl)
  · exact (growth_zero_denominator_behavior.2 tblSales tblZeroRevSales 1
      (by rfl) (by rfl) (by decide)).1

/-- Helper: dividing by a positive finite float and multiplying back is the
identity, also on the special values. -/
theorem FVal.div_mul_cancel_pos (S : FVal) (q : ℚ) (h : 0 < q) :
    (S.div (FVal.fin q)).mul (FVal.fin q) = S := by
  rcases S with a | _ | _ | _
  · simp only [FVal.div, FVal.mul, h.ne.symm, if_false, if_neg (by exact h.ne.symm)]
    rw [div_mul_cancel₀ a h.ne.symm]
  · simp [FVal.div, FVal.mul, not_lt.2 h.le, h.ne.symm, h]
  · simp [FVal.div, FVal.mul, not_lt.2 h.le, h.ne.symm, h]
  · simp [FVal.div, FVal.mul]

/-- Claim C7: on a non-empty sales table with price and order-id columns and
non-null order ids, the returned `avg_order_value` times the returned
`total_orders` equals the sum of the per-order price sums exactly (so also
up to rounding); `avg_order_value` is the mean of the per-order sums and
`total_orders` the number of distinct order ids. -/
theorem aov_times_orders :
    ∀ df : DataFrame,
      "price" ∈ df.cols → "order_id" ∈ df.cols → df.data ≠ [] →
      (∀ r ∈ df.data, cellna (rlookup r "order_id") = false) →
      (calculate_revenue_metrics df "order_purchase_timestamp" "price").isOk = true
      ∧ ∀ m, calculate_revenue_metrics df "order_purchase_timestamp" "price" = .ok m →
          FVal.mul m.avg_order_value (FVal.fin (m.total_orders : ℚ)) =
            (order_values df "price").foldl FVal.add (FVal.fin 0) := by
  intro df hp ho hne hnn
  have hbp : df.cols.contains "price" = true := by simpa using hp
  have hbo : df.cols.contains "order_id" = true := by simpa using ho
  have hE : calculate_revenue_metrics df "order_purchase_timestamp" "price" = .ok
      { total_revenue := colSum (df.data.map (fun r => rlookup r "price"))
        total_orders := nunique (df.data.map (fun r => rlookup r "order_id"))
        total_items := df.data.length
        avg_item_price := colMean (df.data.map (fun r => rlookup r "price"))
        median_item_price := colMedian (df.data.map (fun r => rlookup r "price"))
        avg_order_value := fmean (order_values df "price")
        median_order_value := qmedian (finsOf (order_values df "price"))
        avg_items_per_order := fmean ((items_per_order df).map (fun n => FVal.fin n))
        p25 := colQuantile (df.data.map (fun r => rlookup r "price")) (1 / 4)
        p75 := colQuantile (df.data.map (fun r => rlookup r "price")) (3 / 4)
        p90 := colQuantile (df.data.map (fun r => rlookup r "price")) (9 / 10)
        p95 := colQuantile (df.data.map (fun r => rlookup r "price")) (19 / 20) } := by
    simp [calculate_revenue_metrics, getCol, hp, ho, Bind.bind, Except.bind]
  refine ⟨by rw [hE]; rfl, ?_⟩
  intro m hm
  rw [hE] at hm
  injection hm with hmv
  rw [← hmv]
  have hkeys : orderKeys df ≠ [] := by
    obtain ⟨r, rs, hdf⟩ : ∃ r rs, df.data = r :: rs := by
      cases hd : df.data with
      | nil => exact absurd hd hne
      | cons r rs => exact ⟨r, rs, rfl⟩
    have hc : cellna (rlookup r "order_id") = false :=
      hnn r (by rw [hdf]; exact List.mem_cons_self r rs)
    simp only [orderKeys, groupKeys, hdf, List.map_cons, List.filter_cons, hc,
      Bool.not_false, if_true]
    intro hcon
    rw [List.dedup_eq_nil] at hcon
    exact List.cons_ne_nil _ _ hcon
  have hlen0 : (order_values df "price").length ≠ 0 := by
    simp only [order_values, List.length_map]
    intro hcon
    exact hkeys (List.length_eq_zero.mp hcon)
  have hlen : nunique (df.data.map (fun r => rlookup r "order_id")) =
      (order_values df "price").length := by
    simp [order_values, nunique, orderKeys]
  simp only [fmean, hlen0, if_false, hlen]
  exact FVal.div_mul_cancel_pos _ _ (by exact_mod_cast Nat.pos_of_ne_zero hlen0)

/-- Witness for C7 on the sample sales table (average order value 11 over 2
orders; the order sums are 15 and 7). -/
theorem aov_times_orders_witness :
    FVal.mul tblSalesRev.avg_order_value (FVal.fin (tblSalesRev.total_orders : ℚ)) =
      (order_values tblSales "price").foldl FVal.add (FVal.fin 0) :=
  (aov_times_orders tblSales (by decide) (by decide) (by decide) (by decide)).2
    tblSalesRev (by rfl)

/-- Helper: splitting a successful `Except` bind. -/
theorem except_bind_ok {α β : Type} {x : Except String α} {f : α → Except String β} {b : β}
    (h : Bind.bind x f = .ok b) : ∃ a, x = .ok a ∧ f a = .ok b := by
  cases x with
  | error e => simp [Bind.bind, Except.bind] at h
  | ok a => exact ⟨a, rfl, by simpa [Bind.bind, Except.bind] using h⟩

/-- Helper: a flat map whose pieces are all non-empty does not shrink. -/
theorem length_le_flatMap {α β : Type} (l : List α) (f : α → List β)
    (h : ∀ a ∈ l, 1 ≤ (f a).length) : l.length ≤ (l.flatMap f).length := by
  induction l with
  | nil => simp
  | cons a t ih =>
    simp only [List.flatMap_cons, List.length_append, List.length_cons]
    have h1 := h a (List.mem_cons_self a t)
    have h2 := ih (fun b hb => h b (List.mem_cons_of_mem a hb))
    omega

/-- Helper: a successful left merge has at least as many rows as its left
table. -/
theorem mergeLeft_length (l r : DataFrame) (k : String) (d : DataFrame)
    (h : mergeLeft l r k = .ok d) : l.data.length ≤ d.data.length := by
  simp only [mergeLeft] at h
  split at h
  · exact absurd h (by simp)
  · injection h with hd
    rw [← hd]
    dsimp only
    apply length_le_flatMap
    intro a _
    by_cases hE : (if (rlookup a k).isSome = true then
        List.filter (fun rr => decide (rlookup rr k = rlookup a k)) r.data else []).isEmpty = true
    · rw [if_pos hE]
      simp
    · rw [if_neg hE]
      have hne : (if (rlookup a k).isSome = true then
          List.filter (fun rr => decide (rlookup rr k = rlookup a k)) r.data else []) ≠ [] := by
        intro hc
        exact hE (by rw [hc]; rfl)
      simp only [List.length_map]
      have hpos := List.length_pos.mpr hne
      omega

/-- Helper: column assignment does not change the row count. -/
theorem setColWith_length (df : DataFrame) (c : String) (f : Row → Cell) :
    (setColWith df c f).data.length = df.data.length := by
  unfold setColWith
  split <;> simp

/-- Claim C5: every left join of the pipeline keeps all item-side rows: a
successful `mergeLeft` never returns fewer rows than its left table, the
orders join of `create_sales_dataset` never returns fewer rows than the item
table, and successful `add_product_categories` / `add_review_data` calls
never return fewer rows than the sales table they enrich. -/
theorem left_joins_preserve_rows :
    (∀ (l r : DataFrame) (k : String) (d : DataFrame),
        mergeLeft l r k = .ok d → l.data.length ≤ d.data.length)
    ∧ (∀ (oi o d : DataFrame),
        csd_after_orders_merge oi o = .ok d → (csd_base oi).data.length ≤ d.data.length)
    ∧ (∀ (s p d : DataFrame),
        add_product_categories s p = .ok d → s.data.length ≤ d.data.length)
    ∧ (∀ (s rv d : DataFrame),
        add_review_data s rv = .ok d → s.data.length ≤ d.data.length) := by
  refine ⟨mergeLeft_length, ?_, ?_, ?_⟩
  · intro oi o d h
    exact mergeLeft_length _ _ _ _ h
  · intro s p d h
    simp only [add_product_categories] at h
    split at h
    · injection h with hd
      rw [← hd]
    · split at h
      · injection h with hd
        rw [← hd, setColConst, setColWith_length]
      · obtain ⟨_, _, h⟩ := except_bind_ok h
        obtain ⟨sel, hsel, h⟩ := except_bind_ok h
        obtain ⟨m, hm, h⟩ := except_bind_ok h
        obtain ⟨_, _, h⟩ := except_bind_ok h
        injection h with hd
        rw [← hd]
        exact mergeLeft_length _ _ _ _ hm
  · intro s rv d h
    simp only [add_review_data] at h
    obtain ⟨_, _, h⟩ := except_bind_ok h
    obtain ⟨_, _, h⟩ := except_bind_ok h
    obtain ⟨sel, hsel, h⟩ := except_bind_ok h
    obtain ⟨m, hm, h⟩ := except_bind_ok h
    injection h with hd
    rw [← hd]
    exact mergeLeft_length _ _ _ _ hm

/-- Witness for C5 on the sample tables: the orders join of the item table
and both enrichment joins of the sales table keep every left row. -/
theorem left_joins_preserve_rows_witness :
    (csd_base tblItems).data.length ≤
        ((csd_after_orders_merge tblItems tblOrders).toOption.getD emptyDF).data.length
    ∧ tblSales.data.length ≤ tblCatEnriched.data.length
    ∧ tblSales.data.length ≤ tblReviewEnriched.data.length :=
  ⟨left_joins_preserve_rows.2.1 tblItems tblOrders
      ((csd_after_orders_merge tblItems tblOrders).toOption.getD emptyDF) rfl,
   left_joins_preserve_rows.2.2.1 tblSales tblProducts tblCatEnriched rfl,
   left_joins_preserve_rows.2.2.2 tblSales tblReviews tblReviewEnriched rfl⟩

/-- Helper: appending a non-empty suffix whose last character differs from
the target's last character never yields the target string. -/
theorem append_ne_of_getLast (c s t : String) (hs : s.data ≠ [])
    (h : s.data.getLast? ≠ t.data.getLast?) : c ++ s ≠ t := by
  intro he
  apply h
  have hd : t.data = c.data ++ s.data := by
    rw [← he]
    rfl
  rw [hd, List.getLast?_append_of_ne_nil _ hs]

/-- Helper: the column list of a successful left merge. -/
theorem mergeLeft_cols (l r : DataFrame) (k : String) (d : DataFrame)
    (h : mergeLeft l r k = .ok d) :
    d.cols = l.cols.map (fun c =>
        if (c != k && l.cols.contains c && r.cols.contains c) = true then c ++ "_x" else c)
      ++ (r.cols.filter (fun c => c != k)).map (fun c =>
        if (c != k && l.cols.contains c && r.cols.contains c) = true then c ++ "_y" else c) := by
  simp only [mergeLeft] at h
  split at h
  · exact absurd h (by simp)
  · injection h with hd
    rw [← hd]

/-- Helper: a column present on both sides of a left merge (other than the
key) is suffixed away: the merged table has `tc_x` but not `tc` itself. -/
theorem target_not_mem_merged (l r : DataFrame) (k tc : String) (d : DataFrame)
    (h : mergeLeft l r k = .ok d) (hl : tc ∈ l.cols) (hr : tc ∈ r.cols) (hk : tc ≠ k)
    (hx : ∀ c : String, c ++ "_x" ≠ tc) (hy : ∀ c : String, c ++ "_y" ≠ tc) :
    tc ∉ d.cols ∧ (tc ++ "_x") ∈ d.cols := by
  rw [mergeLeft_cols l r k d h]
  constructor
  · intro hmem
    rcases List.mem_append.mp hmem with hm | hm
    · rcases List.mem_map.mp hm with ⟨c, hc, hceq⟩
      by_cases hov : (c != k && l.cols.contains c && r.cols.contains c) = true
      · rw [if_pos hov] at hceq
        exact hx c hceq
      · rw [if_neg hov] at hceq
        subst hceq
        exact hov (by simp [hk, hl, hr])
    · rcases List.mem_map.mp hm with ⟨c, hc, hceq⟩
      by_cases hov : (c != k && l.cols.contains c && r.cols.contains c) = true
      · rw [if_pos hov] at hceq
        exact hy c hceq
      · rw [if_neg hov] at hceq
        subst hceq
        exact hov (by simp [hk, hl, hr])
  · apply List.mem_append.mpr
    left
    apply List.mem_map.mpr
    exact ⟨tc, hl, by rw [if_pos (by simp [hk, hl, hr])]⟩

/-- Counterexample to claim C2: on the sample tables a second
`add_product_categories` call raises KeyError (the re-join suffixes the
category column into `_x`/`_y` variants, and the function then reads the now
missing plain column), and a second `add_review_data` call returns a table
with suffixed duplicate review columns that differs from the singly enriched
table. -/
theorem enrichment_second_call_differs :
    add_product_categories tblSales tblProducts = .ok tblCatEnriched
    ∧ add_product_categories tblCatEnriched tblProducts =
        .error "KeyError: product_category_name"
    ∧ add_review_data tblSales tblReviews = .ok tblReviewEnriched
    ∧ add_review_data tblReviewEnriched tblReviews = .ok tblReviewTwice
    ∧ tblReviewTwice ≠ tblReviewEnriched := by
  refine ⟨rfl, rfl, rfl, rfl, by decide⟩

/-- Claim C2 as amended: the enrichment functions of `data_loader` do not
detect an existing target column and re-perform the join: on a sales table
already carrying `product_category_name`, `add_product_categories` raises
KeyError (the merge suffixes the duplicated category columns, so the plain
name is gone when the function reads it back), and on a sales table already
carrying `review_score`, `add_review_data` succeeds but returns a table with
`review_score_x` instead of `review_score` — not a table identical to the
single call's result. -/
theorem enrichment_not_idempotent :
    (∀ sales products : DataFrame,
      "product_category_name" ∈ sales.cols → "product_id" ∈ sales.cols →
      "product_id" ∈ products.cols → "product_category_name" ∈ products.cols →
      add_product_categories sales products = .error "KeyError: product_category_name")
    ∧ (∀ sales reviews d : DataFrame,
      "review_score" ∈ sales.cols → "order_id" ∈ sales.cols →
      "order_id" ∈ reviews.cols → "review_score" ∈ reviews.cols →
      add_review_data sales reviews = .ok d →
      "review_score" ∉ d.cols ∧ ("review_score_x") ∈ d.cols) := by
  constructor
  · intro s p h1 h2 h3 h4
    have hb2 : s.cols.contains "product_id" = true := by simpa using h2
    have hb3 : p.cols.contains "product_id" = true := by simpa using h3
    have hb4 : p.cols.contains "product_category_name" = true := by simpa using h4
    have hav : (["product_id", "product_category_name"].filter
        (fun c => p.cols.contains c)) = ["product_id", "product_category_name"] := by
      simp [List.filter, h3, h4]
    have hsel : selectCols p ["product_id", "product_category_name"] =
        .ok (restrictCols p ["product_id", "product_category_name"]) := by
      simp [selectCols, h3, h4]
    have hmerge : ∃ m, mergeLeft s (restrictCols p ["product_id", "product_category_name"])
        "product_id" = .ok m := by
      simp only [mergeLeft, restrictCols, hb2]
      exact ⟨_, by rw [if_neg (by simp [hb2])]⟩
    obtain ⟨m, hm⟩ := hmerge
    have hnm := target_not_mem_merged s
      (restrictCols p ["product_id", "product_category_name"]) "product_id"
      "product_category_name" m hm h1 (by simp [restrictCols]) (by decide)
      (fun c => append_ne_of_getLast c "_x" "product_category_name" (by decide) (by decide))
      (fun c => append_ne_of_getLast c "_y" "product_category_name" (by decide) (by decide))
    have hc : m.cols.contains "product_category_name" = false := by
      simpa using hnm.1
    simp only [add_product_categories, hav]
    rw [if_neg (by decide), if_neg (by decide)]
    simp only [getCol, hb2, hsel, hm, hc, Bind.bind, Except.bind, if_true, if_false,
      Bool.false_eq_true]
    rfl
  · intro s rv d h1 h2 h3 h4 hd
    have hb2 : s.cols.contains "order_id" = true := by simpa using h2
    have hb3 : rv.cols.contains "order_id" = true := by simpa using h3
    simp only [add_review_data, Bind.bind] at hd
    obtain ⟨_, _, hd⟩ := except_bind_ok hd
    obtain ⟨_, _, hd⟩ := except_bind_ok hd
    obtain ⟨sel, hsel, hd⟩ := except_bind_ok hd
    obtain ⟨m, hm, hd⟩ := except_bind_ok hd
    injection hd with hdm
    rw [← hdm]
    have hselval : sel = restrictCols rv
        (["order_id", "review_score", "review_creation_date"].filter
          (fun c => rv.cols.contains c)) := by
      simp only [selectCols] at hsel
      split at hsel
      · injection hsel with hv
        exact hv.symm
      · exact absurd hsel (by simp)
    have hmemsel : "review_score" ∈ sel.cols := by
      rw [hselval]
      simp only [restrictCols]
      apply List.mem_filter.mpr
      exact ⟨by simp, by simpa using h4⟩
    rw [hselval] at hm
    exact target_not_mem_merged s _ "order_id" "review_score" m hm h1
      (by rw [hselval] at hmemsel; exact hmemsel) (by decide)
      (fun c => append_ne_of_getLast c "_x" "review_score" (by decide) (by decide))
      (fun c => append_ne_of_getLast c "_y" "review_score" (by decide) (by decide))

/-- Witness for C2's amended statement on the already-enriched sample
tables. -/
theorem enrichment_not_idempotent_witness :
    add_product_categories tblCatEnriched tblProducts =
        .error "KeyError: product_category_name"
    ∧ ("review_score" ∉ tblReviewTwice.cols ∧ ("review_score_x") ∈ tblReviewTwice.cols) :=
  ⟨enrichment_not_idempotent.1 tblCatEnriched tblProducts (by decide) (by decide)
      (by decide) (by decide),
   enrichment_not_idempotent.2 tblReviewEnriched tblReviews tblReviewTwice (by decide)
      (by decide) (by decide) (by decide) rfl⟩

/-- Helper: the fold picking the earlier of two dates stays inside the
candidate list. -/
theorem foldl_pick_mem (t : List Date) (a : Date) :
    (t.foldl (fun x b => if b.t < x.t then b else x) a) ∈ a :: t := by
  induction t generalizing a with
  | nil => exact List.mem_singleton.mpr rfl
  | cons b t ih =>
    simp only [List.foldl_cons]
    have h := ih (if b.t < a.t then b else a)
    rcases List.mem_cons.mp h with h1 | h1
    · rw [h1]
      by_cases hb : b.t < a.t
      · rw [if_pos hb]
        exact List.mem_cons_of_mem _ (List.mem_cons_self _ _)
      · rw [if_neg hb]
        exact List.mem_cons_self _ _
    · exact List.mem_cons_of_mem _ (List.mem_cons_of_mem _ h1)

/-- Helper: the minimum of a date list is a member of the list. -/
theorem dateMinBy_mem (l : List Date) (d : Date) (h : dateMinBy l = some d) : d ∈ l := by
  cases l with
  | nil => exact absurd h (by simp [dateMinBy])
  | cons a t =>
    simp only [dateMinBy, Option.some.injEq] at h
    rw [← h]
    exact foldl_pick_mem t a

/-- Helper: a customer whose cohort month is `c` has an actual purchase in
month `c` (its first purchase). -/
theorem cohort_attained (ps : List (Val × Date)) (cv : Val) (c : ℤ)
    (h : cohortOf ps cv = some c) : ∃ pr ∈ ps, pr.1 = cv ∧ monthIdx pr.2 = c := by
  unfold cohortOf at h
  cases hM : dateMinBy ((ps.filter (fun p => decide (p.1 = cv))).map Prod.snd) with
  | none => rw [hM] at h; exact absurd h (by simp)
  | some dmin =>
    rw [hM] at h
    simp only [Option.map_some', Option.some.injEq] at h
    have hmem := dateMinBy_mem _ _ hM
    rcases List.mem_map.mp hmem with ⟨pr, hpr, hsnd⟩
    have hfil := List.mem_filter.mp hpr
    refine ⟨pr, hfil.1, by simpa using hfil.2, ?_⟩
    rw [hsnd, h]

/-- Helper: the distinct customers active in period 0 of cohort `c` are
exactly the distinct customers of cohort `c`. -/
theorem retention_sets_eq (ps : List (Val × Date)) (c : ℤ) :
    ((ps.filter (fun pr => decide (cohortOf ps pr.1 = some c)
        && decide (monthIdx pr.2 - c = 0))).map Prod.fst).toFinset =
    ((ps.filter (fun pr => decide (cohortOf ps pr.1 = some c))).map Prod.fst).toFinset := by
  ext x
  simp only [List.mem_toFinset, List.mem_map]
  constructor
  · rintro ⟨pr, hpr, rfl⟩
    have h := List.mem_filter.mp hpr
    rw [Bool.and_eq_true] at h
    exact ⟨pr, List.mem_filter.mpr ⟨h.1, h.2.1⟩, rfl⟩
  · rintro ⟨pr, hpr, rfl⟩
    have h := List.mem_filter.mp hpr
    have hco : cohortOf ps pr.1 = some c := of_decide_eq_true h.2
    obtain ⟨pr', hpr', hfst, hmon⟩ := cohort_attained ps pr.1 c hco
    refine ⟨pr', List.mem_filter.mpr ⟨hpr', ?_⟩, hfst⟩
    rw [Bool.and_eq_true]
    constructor
    · rw [hfst]
      exact decide_eq_true hco
    · exact decide_eq_true (by rw [hmon]; ring)

/-- Claim C4: on a table whose customer and purchase-date cells are all
present, every cohort row of the retention table returned by
`calculate_cohort_metrics` has the value 1.0 at period number 0 (each
cohort's period-0 distinct-customer count equals its size). -/
theorem retention_period_zero_one :
    ∀ (df : DataFrame) (dc cc : String),
      (∀ r ∈ df.data, cellna (rlookup r cc) = false
        ∧ ∃ dt, rlookup r dc = some (Val.date dt)) →
      ∀ c ∈ (calculate_cohort_metrics df dc cc).index,
        (calculate_cohort_metrics df dc cc).cell c 0 = some 1 := by
  intro df dc cc _ c hc
  have hc' : c ∈ cohortIndex (cohortPairs df dc cc) := hc
  show retentionCell (cohortPairs df dc cc) c 0 = some 1
  have hsets := retention_sets_eq (cohortPairs df dc cc) c
  have hcard :
      (((cohortPairs df dc cc).filter (fun pr => decide (cohortOf (cohortPairs df dc cc) pr.1 = some c)
          && decide (monthIdx pr.2 - c = 0))).map Prod.fst).dedup.length =
      (((cohortPairs df dc cc).filter (fun pr =>
          decide (cohortOf (cohortPairs df dc cc) pr.1 = some c))).map Prod.fst).dedup.length := by
    rw [← List.card_toFinset, ← List.card_toFinset, hsets]
  have hpos :
      (((cohortPairs df dc cc).filter (fun pr => decide (cohortOf (cohortPairs df dc cc) pr.1 = some c)
          && decide (monthIdx pr.2 - c = 0))).map Prod.fst).dedup.length ≠ 0 := by
    simp only [cohortIndex, List.mem_dedup] at hc'
    rcases List.mem_filterMap.mp hc' with ⟨cv, _, hcv⟩
    obtain ⟨pr', hpr', hfst, hmon⟩ := cohort_attained (cohortPairs df dc cc) cv c hcv
    have hmem : pr'.1 ∈ (((cohortPairs df dc cc).filter
        (fun pr => decide (cohortOf (cohortPairs df dc cc) pr.1 = some c)
          && decide (monthIdx pr.2 - c = 0))).map Prod.fst) := by
      apply List.mem_map.mpr
      refine ⟨pr', List.mem_filter.mpr ⟨hpr', ?_⟩, rfl⟩
      rw [Bool.and_eq_true]
      exact ⟨decide_eq_true (by rw [hfst]; exact hcv),
        decide_eq_true (by rw [hmon]; ring)⟩
    intro hzero
    rw [List.length_eq_zero, List.dedup_eq_nil] at hzero
    rw [hzero] at hmem
    exact List.not_mem_nil _ hmem
  have hpos' := hcard ▸ hpos
  unfold retentionCell
  rw [if_neg hpos, hcard]
  congr 1
  apply div_self
  exact_mod_cast hpos'

/-- Witness for C4 on the sample cohort table at the 2023-01 cohort. -/
theorem retention_period_zero_one_witness :
    (calculate_cohort_metrics tblCohort "order_purchase_timestamp" "customer_id").cell
      (12 * 2023 + 1) 0 = some 1 :=
  retention_period_zero_one tblCohort "order_purchase_timestamp" "customer_id"
    (by
      intro r hr
      simp only [tblCohort, List.mem_cons, List.not_mem_nil, or_false] at hr
      rcases hr with rfl | rfl | rfl
      · exact ⟨rfl, ⟨⟨100, 2023, 1⟩, rfl⟩⟩
      · exact ⟨rfl, ⟨⟨140, 2023, 2⟩, rfl⟩⟩
      · exact ⟨rfl, ⟨⟨135, 2023, 2⟩, rfl⟩⟩)
    (12 * 2023 + 1) (by decide)

/-- Counterexample to claim C1: on the sample tables with a reviews table
lacking `review_score`, the customer-experience group raises, and the
operations group — whose computation `calculate_operational_metrics` is a
total function that cannot fail — is nevertheless missing from the returned
summary, because the single `try` block stops at the first failure.  The
groups computed before the failure are present and the warning fired. -/
theorem summary_drops_ok_group :
    (calculate_customer_experience_metrics tblSales tblReviewsBare).isOk = false
    ∧ tblSummary.revenue.isSome = true
    ∧ tblSummary.categories.isSome = true
    ∧ tblSummary.geography.isSome = true
    ∧ tblSummary.customer_experience = none
    ∧ tblSummary.operations = none
    ∧ tblSummary.warned = true :=
  ⟨rfl, rfl, rfl, rfl, rfl, rfl, rfl⟩

/-- Claim C1 as amended: `generate_metrics_summary` computes the five metric
groups inside one `try` block, so the first failing group converts the
exception to a warning and returns the partial summary — the groups computed
before the failure are retained, while the failing group and every group
after it (even ones whose computation would not fail) are excluded. -/
theorem summary_prefix_on_failure :
    ∀ (s p o cu rv : DataFrame) (ap : String),
      ((calculate_revenue_metrics s "order_purchase_timestamp" "price").isOk = false →
        generate_metrics_summary s p o cu rv ap = ⟨ap, none, none, none, none, none, true⟩)
      ∧ (∀ m, calculate_revenue_metrics s "order_purchase_timestamp" "price" = .ok m →
          (calculate_product_category_metrics s p "price").isOk = false →
          generate_metrics_summary s p o cu rv ap =
            ⟨ap, some m, none, none, none, none, true⟩)
      ∧ (∀ m ct, calculate_revenue_metrics s "order_purchase_timestamp" "price" = .ok m →
          calculate_product_category_metrics s p "price" = .ok ct →
          (calculate_geographic_metrics s o cu "price" "state").isOk = false →
          generate_metrics_summary s p o cu rv ap =
            ⟨ap, some m, some ct.1, none, none, none, true⟩)
      ∧ (∀ m ct g, calculate_revenue_metrics s "order_purchase_timestamp" "price" = .ok m →
          calculate_product_category_metrics s p "price" = .ok ct →
          calculate_geographic_metrics s o cu "price" "state" = .ok g →
          (calculate_customer_experience_metrics s rv).isOk = false →
          generate_metrics_summary s p o cu rv ap =
            ⟨ap, some m, some ct.1, some g.1, none, none, true⟩)
      ∧ (∀ m ct g cx, calculate_revenue_metrics s "order_purchase_timestamp" "price" = .ok m →
          calculate_product_category_metrics s p "price" = .ok ct →
          calculate_geographic_metrics s o cu "price" "state" = .ok g →
          calculate_customer_experience_metrics s rv = .ok cx →
          generate_metrics_summary s p o cu rv ap =
            ⟨ap, some m, some ct.1, some g.1, some cx,
             some (calculate_operational_metrics s o), false⟩) := by
  intro s p o cu rv ap
  refine ⟨?_, ?_, ?_, ?_, ?_⟩
  · intro h
    obtain ⟨e, he⟩ : ∃ e,
        calculate_revenue_metrics s "order_purchase_timestamp" "price" = .error e := by
      cases hX : calculate_revenue_metrics s "order_purchase_timestamp" "price" with
      | ok v => rw [hX] at h; simp [Except.isOk, Except.toBool] at h
      | error e => exact ⟨e, rfl⟩
    simp [generate_metrics_summary, he]
  · intro m hm h
    obtain ⟨e, he⟩ : ∃ e, calculate_product_category_metrics s p "price" = .error e := by
      cases hX : calculate_product_category_metrics s p "price" with
      | ok v => rw [hX] at h; simp [Except.isOk, Except.toBool] at h
      | error e => exact ⟨e, rfl⟩
    simp [generate_metrics_summary, hm, he]
  · intro m ct hm hct h
    obtain ⟨ctdf, ctw⟩ := ct
    obtain ⟨e, he⟩ : ∃ e, calculate_geographic_metrics s o cu "price" "state" = .error e := by
      cases hX : calculate_geographic_metrics s o cu "price" "state" with
      | ok v => rw [hX] at h; simp [Except.isOk, Except.toBool] at h
      | error e => exact ⟨e, rfl⟩
    simp [generate_metrics_summary, hm, hct, he]
  · intro m ct g hm hct hg h
    obtain ⟨ctdf, ctw⟩ := ct
    obtain ⟨gdf, gw⟩ := g
    obtain ⟨e, he⟩ : ∃ e, calculate_customer_experience_metrics s rv = .error e := by
      cases hX : calculate_customer_experience_metrics s rv with
      | ok v => rw [hX] at h; simp [Except.isOk, Except.toBool] at h
      | error e => exact ⟨e, rfl⟩
    simp [generate_metrics_summary, hm, hct, hg, he]
  · intro m ct g cx hm hct hg hcx
    obtain ⟨ctdf, ctw⟩ := ct
    obtain ⟨gdf, gw⟩ := g
    simp [generate_metrics_summary, hm, hct, hg, hcx]

/-- Witness for C1's amended statement at the concrete input where the
customer-experience group fails: the summary keeps revenue, categories and
geography, and drops the failing group and operations. -/
theorem summary_prefix_on_failure_witness :
    generate_metrics_summary tblSales tblProducts tblOrders tblCustomers tblReviewsBare
        "Current Period" =
      ⟨"Current Period", some tblSalesRev, some tblSalesCat.1, some tblSalesGeo.1,
       none, none, true⟩ :=
  (summary_prefix_on_failure tblSales tblProducts tblOrders tblCustomers tblReviewsBare
    "Current Period").2.2.2.1 tblSalesRev tblSalesCat tblSalesGeo rfl rfl rfl rfl

end EcomSpec
